import Mathlib

/-!
Verification of the Monity (Monad Migration MCP Server) repository.

The development shallowly embeds the TypeScript sources:
  * `index.ts` (tool registry and dispatch),
  * `config/monad-config.ts` (`MonadNetworkConfig`),
  * `tools/validation.ts` (`ValidationTool`),
  * `tools/contract-migration.ts` (`ContractMigrationTool`, deployment script
    generator) and the descriptor tables of the remaining tool modules.

JavaScript strings are modelled by Lean `String`; `String.prototype.includes`
is modelled by an executable substring search; the few regular expressions
used by `check_gas_optimization` are modelled by a small Brzozowski-derivative
matcher covering exactly the constructs they use.
-/

/-! ## String utilities: JS `String.prototype.includes` -/

/-- Predicate `beginsWith pat s`: true iff the char list `pat` is a prefix of `s`. -/
def beginsWith : List Char → List Char → Bool
  | [], _ => true
  | _ :: _, [] => false
  | a :: pa, b :: pb => a == b && beginsWith pa pb

/-- Predicate `hasSub pat s`: true iff `pat` occurs as a contiguous run inside `s`.
This is the semantics of JavaScript `s.includes(pat)`. -/
def hasSub (pat : List Char) : List Char → Bool
  | [] => beginsWith pat []
  | c :: t => beginsWith pat (c :: t) || hasSub pat t

/-- Model of JavaScript `s.includes(pat)`. -/
def strIncludes (s pat : String) : Bool :=
  hasSub pat.data s.data

/-- Model of JavaScript `s.toLowerCase()` (ASCII range; every address stored in
the configuration is ASCII). -/
def lowerStr (s : String) : String :=
  s.map Char.toLower

/-- Model of JavaScript `s.toUpperCase()` (ASCII range). -/
def upperStr (s : String) : String :=
  s.map Char.toUpper

theorem data_append (s t : String) : (s ++ t).data = s.data ++ t.data := by
  cases s; cases t; rfl

theorem beginsWith_self_append (p r : List Char) : beginsWith p (p ++ r) = true := by
  induction p with
  | nil => rfl
  | cons a pa ih => simp [beginsWith, ih]

theorem beginsWith_append_of (p s t : List Char) (h : beginsWith p s = true) :
    beginsWith p (s ++ t) = true := by
  induction p generalizing s with
  | nil => rfl
  | cons a pa ih =>
    cases s with
    | nil => simp [beginsWith] at h
    | cons b sb =>
      simp only [beginsWith, Bool.and_eq_true] at h ⊢
      exact ⟨h.1, ih sb h.2⟩

theorem hasSub_of_beginsWith (p s : List Char) (h : beginsWith p s = true) :
    hasSub p s = true := by
  cases s <;> simp [hasSub, h]

theorem hasSub_append_right (p s t : List Char) (h : hasSub p t = true) :
    hasSub p (s ++ t) = true := by
  induction s with
  | nil => simpa using h
  | cons c cs ih => simp [hasSub, ih]

theorem hasSub_nil_pat (t : List Char) : hasSub [] t = true := by
  cases t <;> simp [hasSub, beginsWith]

theorem hasSub_append_left (p s t : List Char) (h : hasSub p s = true) :
    hasSub p (s ++ t) = true := by
  induction s with
  | nil =>
    cases p with
    | nil => exact hasSub_nil_pat t
    | cons a pa => simp [hasSub, beginsWith] at h
  | cons c cs ih =>
    simp only [hasSub, Bool.or_eq_true] at h
    rcases h with h | h
    · simp only [List.cons_append, hasSub, Bool.or_eq_true]
      exact Or.inl (beginsWith_append_of _ _ _ h)
    · simp only [List.cons_append, hasSub, Bool.or_eq_true]
      exact Or.inr (ih h)

theorem strIncludes_append_right (s t pat : String) (h : strIncludes t pat = true) :
    strIncludes (s ++ t) pat = true := by
  unfold strIncludes at *
  rw [data_append]
  exact hasSub_append_right _ _ _ h

theorem strIncludes_append_left (s t pat : String) (h : strIncludes s pat = true) :
    strIncludes (s ++ t) pat = true := by
  unfold strIncludes at *
  rw [data_append]
  exact hasSub_append_left _ _ _ h

theorem strIncludes_here (pat rest : String) : strIncludes (pat ++ rest) pat = true := by
  unfold strIncludes
  rw [data_append]
  exact hasSub_of_beginsWith _ _ (beginsWith_self_append _ _)

/-! ## `config/monad-config.ts`: `MonadNetworkConfig` -/

/-- Embeds interface `MonadNetworkInfo` (fields in declaration order:
`chainId`, `name`, `currency`, `rpcUrl`, `explorerUrl`, `faucetUrl`,
`testnetHub`). -/
structure MonadNetworkInfo where
  chainId : Nat
  name : String
  currency : String
  rpcUrl : String
  explorerUrl : String
  faucetUrl : Option String
  testnetHub : Option String

/-- Embeds interface `MonadGasConfig`. JavaScript `bigint` values are
embedded as `Nat` (all values used are non-negative). -/
structure MonadGasConfig where
  baseFeePerGas : Nat
  maxPriorityFeePerGas : Nat
  defaultGasPrice : Nat
  standardTransferGas : Nat

/-- Embeds the object literal `OPTIMIZATION_CONSTANTS`. -/
structure OptimizationConstants where
  MAX_BLOCK_RANGE_LOGS : Nat
  RECOMMENDED_BLOCK_RANGE : Nat
  MAX_CONTRACT_SIZE : Nat
  BLOCK_TIME_MS : Nat
  RECOMMENDED_BATCH_SIZE : Nat
  MAX_BATCH_SIZE : Nat

namespace MonadNetworkConfig

/-- Embeds `static readonly TESTNET` (fields in the order of `MonadNetworkInfo`). -/
def TESTNET : MonadNetworkInfo :=
  ⟨10143, "Monad Testnet", "MON", "https://testnet-rpc.monad.xyz",
   "https://testnet.monadexplorer.com", some "https://faucet.monad.xyz",
   some "https://testnet.monad.xyz"⟩

/-- Embeds `static readonly GAS_CONFIG`: base fee `50 gwei`, priority fee `2 gwei`,
default price `52 gwei`, standard transfer `21000` (fields in the order of
`MonadGasConfig`). -/
def GAS_CONFIG : MonadGasConfig :=
  ⟨50 * 10 ^ 9, 2 * 10 ^ 9, 52 * 10 ^ 9, 21000⟩

/-- Embeds `CONTRACTS.CreateX`. -/
def CreateXAddr : String := "0xba5Ed099633D3B313e4D5F7bdc1305d3c28ba5Ed"

/-- Embeds `CONTRACTS.Multicall3`. -/
def Multicall3Addr : String := "0xcA11bde05977b3631167028862bE2a173976CA11"

/-- Embeds `static readonly CONTRACTS`, as the ordered association list of its own
(insertion-ordered) properties. -/
def CONTRACTS : List (String × String) :=
  [("CreateX", CreateXAddr),
   ("FoundryDeterministicDeployer", "0x4e59b44847b379578588920ca78fbf26c0b4956c"),
   ("SafeSingletonFactory", "0x914d7Fec6aaC8cd542e72Bca78B30650d45643d7"),
   ("EntryPointV06", "0x5FF137D4b0FDCD49DcA30c7CF57E578a026d2789"),
   ("EntryPointV07", "0x0000000071727De22E5E9d8BAf0edAc6f37da032"),
   ("Multicall3", Multicall3Addr),
   ("Permit2", "0x000000000022d473030f116ddee9f6b43ac78ba3"),
   ("UniswapV2Factory", "0x733e88f248b742db6c14c0b1713af5ad7fdd59d0"),
   ("UniswapV3Factory", "0x961235a9020b05c44df1026d956d1f4d78014276"),
   ("UniswapV2Router02", "0xfb8e1c3b833f9e67a71c859a132cf783b645e436"),
   ("UniswapUniversalRouter", "0x3ae6d8a282d67893e17aa70ebffb33ee5aa65893"),
   ("WrappedMonad", "0x760AfE86e5de5fa0Ee542fc7B7B713e1c5425701")]

/-- Embeds `static readonly TEST_TOKENS` (insertion order). -/
def TEST_TOKENS : List (String × String) :=
  [("USDC", "0xf817257fed379853cDe0fa4F97AB987181B1E5Ea"),
   ("USDT", "0x88b8E2161DEDC77EF4ab7585569D2415a1C1055D"),
   ("WBTC", "0xcf5a6076cfa32686c0Df13aBaDa2b40dec133F1d"),
   ("WETH", "0xB5a30b0FDc42e3E9760Cb8449Fb37"),
   ("WSOL", "0x5387C85A4965769f6B0Df430638a1388493486F1")]

/-- Embeds `static readonly OPTIMIZATION_CONSTANTS` (fields in the order of
`OptimizationConstants`; `MAX_CONTRACT_SIZE` is written `128 * 1024` in the
source). -/
def OPTIMIZATION_CONSTANTS : OptimizationConstants :=
  ⟨100, 10, 128 * 1024, 500, 50, 100⟩

/-- Embeds `static isCanonicalContract(address)`: case-insensitive match of `address`
against the values of `CONTRACTS` (`Object.values(...).some(...)`). -/
def isCanonicalContract (address : String) : Bool :=
  (CONTRACTS.map Prod.snd).any (fun contractAddress =>
    lowerStr contractAddress == lowerStr address)

/-- Loop body of `static getContractName(address)`: iterate the entries of
`CONTRACTS` in insertion order, returning the first name whose address
matches the lowercased input. -/
def contractNameLoop (lowerAddress : String) : List (String × String) → Option String
  | [] => none
  | (name, contractAddress) :: rest =>
    if lowerStr contractAddress == lowerAddress then some name
    else contractNameLoop lowerAddress rest

/-- Embeds `static getContractName(address)`. -/
def getContractName (address : String) : Option String :=
  contractNameLoop (lowerStr address) CONTRACTS

/-- Spec-side definition (§4.4): `isKnownAddress(address)` holds iff some
entry of the contract mapping matches the address case-insensitively. -/
def isKnownAddressSpec (address : String) : Prop :=
  ∃ p ∈ CONTRACTS, lowerStr p.2 = lowerStr address

/-- Spec-side definition (§4.4): `nameForAddress(address)` is the name of the
first matching entry in mapping iteration (insertion) order, if any. -/
def nameForAddressSpec (address : String) : Option String :=
  (CONTRACTS.find? (fun p => lowerStr p.2 == lowerStr address)).map Prod.fst

end MonadNetworkConfig

/-! ## Small helpers used by templates -/

/-- JavaScript string interpolation of a possibly-undefined value. -/
def optStr : Option String → String
  | some s => s
  | none => "undefined"

/-- Embeds the quoted-and-joined constructor argument list used by the deployment script template. -/
def quotedArgsJoin (constructorArgs : List String) : String :=
  String.intercalate ", " (constructorArgs.map (fun arg => "\"" ++ (arg ++ "\"")))

/-! ## `tools/validation.ts`: `ValidationTool.validateMonadMigration` -/

/-- One entry of the `checks` array: `{name, passed, description}`. -/
structure ValCheck where
  name : String
  passed : Bool
  description : String

/-- Check "Network Configuration":
`codeBase.includes(MonadNetworkConfig.TESTNET.chainId.toString())`. -/
def networkConfigCheckPassed (codeBase : String) : Bool :=
  strIncludes codeBase (toString MonadNetworkConfig.TESTNET.chainId)

/-- Check "Gas Price Optimization":
`codeBase.includes("52000000000") || codeBase.includes("52 * 10**9")`. -/
def gasPriceCheckPassed (codeBase : String) : Bool :=
  strIncludes codeBase "52000000000" || strIncludes codeBase "52 * 10**9"

/-- Check "Multicall Integration":
`codeBase.includes("multicall") || codeBase.includes("Multicall3")`. -/
def multicallCheckPassed (codeBase : String) : Bool :=
  strIncludes codeBase "multicall" || strIncludes codeBase "Multicall3"

/-- Check "Concurrent Processing": `codeBase.includes("Promise.all")`. -/
def concurrentCheckPassed (codeBase : String) : Bool :=
  strIncludes codeBase "Promise.all"

/-- Check "Gas Limit Management":
`codeBase.includes("gasLimit") && !codeBase.includes("estimateGas")`. -/
def gasLimitCheckPassed (codeBase : String) : Bool :=
  strIncludes codeBase "gasLimit" && !strIncludes codeBase "estimateGas"

/-- The `checks` array of `validateMonadMigration`, in declaration order. -/
def validateChecks (codeBase : String) : List ValCheck :=
  [⟨"Network Configuration", networkConfigCheckPassed codeBase,
    "Uses correct Monad chain ID (10143)"⟩,
   ⟨"Gas Price Optimization", gasPriceCheckPassed codeBase,
    "Uses hardcoded gas price instead of RPC calls"⟩,
   ⟨"Multicall Integration", multicallCheckPassed codeBase,
    "Implements multicall for batch operations"⟩,
   ⟨"Concurrent Processing", concurrentCheckPassed codeBase,
    "Uses concurrent patterns for better performance"⟩,
   ⟨"Gas Limit Management", gasLimitCheckPassed codeBase,
    "Uses explicit gas limits instead of estimation"⟩]

/-- Embeds `const passedChecks = checks.filter(check => check.passed).length`. -/
def validatePassedChecks (codeBase : String) : Nat :=
  ((validateChecks codeBase).filter (fun check => check.passed)).length

/-- Model of JavaScript `Math.round(num / den)` for `0 ≤ num`, `0 < den`:
round-half-up on the rational `num / den`, i.e. `⌊num/den + 1/2⌋`.
(The floating-point evaluation of `(passedChecks / 5) * 100` is exact at
every reachable value `passedChecks ∈ {0,…,5}`, so this model agrees with
the JS computation.) -/
def mathRound (num den : Nat) : Nat :=
  (2 * num + den) / (2 * den)

/-- Embeds `const score = Math.round((passedChecks / checks.length) * 100)`. -/
def validateScore (codeBase : String) : Nat :=
  mathRound (validatePassedChecks codeBase * 100) ((validateChecks codeBase).length)

/-- The `recommendations` array: one message pushed per failed check, in
check order. -/
def validateRecommendations (codeBase : String) : List String :=
  (if networkConfigCheckPassed codeBase then []
   else ["Update network configuration to use Monad testnet (Chain ID: 10143)"]) ++
  ((if gasPriceCheckPassed codeBase then []
    else ["Replace dynamic gas price calls with hardcoded value (52 gwei)"]) ++
  ((if multicallCheckPassed codeBase then []
    else ["Implement Multicall3 for batching contract reads"]) ++
  ((if concurrentCheckPassed codeBase then []
    else ["Add concurrent processing with Promise.all for better performance"]) ++
  (if gasLimitCheckPassed codeBase then []
   else ["Use explicit gas limits instead of gas estimation"]))))

/-! ## `tools/validation.ts`: regular expressions of `checkGasOptimization`

The five patterns use only literals, `.`, `\d`, `*`, `+`, alternation and the
`i` flag; they are modelled by a Brzozowski-derivative matcher over exactly
those constructs. `regexTest` models JavaScript `RegExp.prototype.test`
(unanchored search); `.` does not match a newline. -/

inductive RegExpr where
  | fail
  | eps
  | char (c : Char)
  | anyChar
  | digitCls
  | cat (a b : RegExpr)
  | alt (a b : RegExpr)
  | star (a : RegExpr)

/-- Does the language of `r` contain the empty string? -/
def nullable : RegExpr → Bool
  | .fail => false
  | .eps => true
  | .char _ => false
  | .anyChar => false
  | .digitCls => false
  | .cat a b => nullable a && nullable b
  | .alt a b => nullable a || nullable b
  | .star _ => true

/-- Brzozowski derivative of `r` by the character `c`. -/
def derivRe (r : RegExpr) (c : Char) : RegExpr :=
  match r with
  | .fail => .fail
  | .eps => .fail
  | .char d => if c == d then .eps else .fail
  | .anyChar => if c == '\n' then .fail else .eps
  | .digitCls => if c.isDigit then .eps else .fail
  | .cat a b =>
    if nullable a then .alt (.cat (derivRe a c) b) (derivRe b c)
    else .cat (derivRe a c) b
  | .alt a b => .alt (derivRe a c) (derivRe b c)
  | .star a => .cat (derivRe a c) (.star a)

/-- Does some prefix of `s` match `r`? -/
def matchesFrom (r : RegExpr) : List Char → Bool
  | [] => nullable r
  | c :: cs => nullable r || matchesFrom (derivRe r c) cs

/-- Does `r` match starting at some position of `s` (unanchored search)? -/
def regexSearch (r : RegExpr) : List Char → Bool
  | [] => matchesFrom r []
  | c :: cs => matchesFrom r (c :: cs) || regexSearch r cs

/-- JavaScript `re.test(s)` for a case-sensitive pattern. -/
def regexTest (r : RegExpr) (s : String) : Bool :=
  regexSearch r s.data

/-- JavaScript `re.test(s)` for an `i`-flagged pattern whose literals are
lowercase: match against the lowercased subject. -/
def regexTestCI (r : RegExpr) (s : String) : Bool :=
  regexSearch r (s.data.map Char.toLower)

/-- Literal regular expression for a string. -/
def litRe (s : String) : RegExpr :=
  s.data.foldr (fun c r => .cat (.char c) r) .eps

/-- Pattern `.*` (dot does not match newline). -/
def dotStar : RegExpr := .star .anyChar

/-- Pattern `r+`. -/
def plusRe (r : RegExpr) : RegExpr := .cat r (.star r)

/-- Pattern `/gasPrice.*52.*10\*\*9|gasPrice.*52000000000/`. -/
def gasPattern1 : RegExpr :=
  .alt (.cat (litRe "gasPrice") (.cat dotStar (.cat (litRe "52") (.cat dotStar (litRe "10**9")))))
       (.cat (litRe "gasPrice") (.cat dotStar (litRe "52000000000")))

/-- Pattern `/gasLimit.*\d+/`. -/
def gasPattern2 : RegExpr :=
  .cat (litRe "gasLimit") (.cat dotStar (plusRe .digitCls))

/-- Pattern `/estimateGas/`. -/
def gasPattern3 : RegExpr := litRe "estimateGas"

/-- Pattern `/maxFeePerGas|maxPriorityFeePerGas/`. -/
def gasPattern4 : RegExpr :=
  .alt (litRe "maxFeePerGas") (litRe "maxPriorityFeePerGas")

/-- Pattern `/batch|multicall/i`. -/
def gasPattern5 : RegExpr :=
  .alt (litRe "batch") (litRe "multicall")

/-- One entry of the `gasChecks` array: `{check, importance, passed}` after
the `forEach` that evaluates every pattern ("No Gas Estimation" is the
declared inverse check: passed iff the pattern does NOT match). -/
structure GasCheck where
  check : String
  importance : String
  passed : Bool

/-- The `gasChecks` array of `checkGasOptimization` after the run phase, in
declaration order. -/
def gasChecks (code : String) : List GasCheck :=
  [⟨"Hardcoded Gas Values", "high", regexTest gasPattern1 code⟩,
   ⟨"Explicit Gas Limits", "high", regexTest gasPattern2 code⟩,
   ⟨"No Gas Estimation", "medium", !regexTest gasPattern3 code⟩,
   ⟨"EIP-1559 Support", "medium", regexTest gasPattern4 code⟩,
   ⟨"Batch Operations", "high", regexTestCI gasPattern5 code⟩]

/-- Embeds `gasChecks.filter(c => c.importance === "high" && c.passed).length`. -/
def highPriorityPassed (code : String) : Nat :=
  ((gasChecks code).filter (fun c => c.importance == "high" && c.passed)).length

/-- Embeds `gasChecks.filter(c => c.importance === "high").length`. -/
def highPriorityTotal (code : String) : Nat :=
  ((gasChecks code).filter (fun c => c.importance == "high")).length

/-! ## `tools/validation.ts`: `generateMigrationChecklist` -/

/-- Embeds `basicChecklist` (5 items). -/
def basicChecklist : List String :=
  ["Update network configuration to Monad testnet (Chain ID: 10143)",
   "Replace dynamic gas pricing with hardcoded values",
   "Set explicit gas limits for all transactions",
   "Test basic contract deployment and interaction",
   "Verify contract functionality on Monad testnet"]

/-- Embeds `moderateChecklist = [...basicChecklist, …6 more]`. -/
def moderateChecklist : List String :=
  basicChecklist ++
  ["Implement multicall patterns for batch operations",
   "Add concurrent transaction processing",
   "Set up event indexing with supported providers",
   "Optimize contract reads with batch patterns",
   "Implement proper nonce management for multiple transactions",
   "Test gas usage patterns and optimize accordingly"]

/-- Embeds `complexChecklist = [...moderateChecklist, …10 more]`. -/
def complexChecklist : List String :=
  moderateChecklist ++
  ["Leverage Monad\x27s 128kb contract size limit for consolidation",
   "Implement custom batching contracts for complex operations",
   "Set up comprehensive monitoring and alerting",
   "Optimize for Monad\x27s high throughput capabilities",
   "Implement cross-chain bridge integrations if needed",
   "Set up automated testing for concurrent scenarios",
   "Implement advanced indexing with multiple providers",
   "Optimize frontend for Monad\x27s fast block times (0.5s)",
   "Set up proper error handling for batch operations",
   "Implement fallback strategies for RPC failures"]

/-- Embeds the checklist selection of the source: a ternary chain testing
first for the simple level, then the moderate level, and otherwise falling
through to the complex checklist. -/
def selectChecklist (complexity : String) : List String :=
  if complexity == "simple" then basicChecklist
  else if complexity == "moderate" then moderateChecklist
  else complexChecklist

/-! ## Report templates (faithful embeddings of the template literals) -/

def validateReportText (projectType codeBase : String) : String :=
  "## Monad Migration Validation Report\n\n### Migration Score: " ++
  ((toString (validateScore codeBase)) ++
  ("% (" ++
  ((toString (validatePassedChecks codeBase)) ++
  ("/" ++
  ((toString (List.length (validateChecks codeBase))) ++
  (" checks passed)\n\n### Validation Results:\n" ++
  ((String.intercalate "\n" ((validateChecks codeBase).map (fun check => (if check.passed then "\xE2\u0153\u2026" else "\xE2\u0152") ++ (" **" ++ (check.name ++ ("**: " ++ check.description)))))) ++
  ("\n\n### Project Type: " ++
  ((projectType) ++
  ("\n" ++
  (((if projectType == "defi" then "Consider implementing batch swap functions and optimized liquidity operations" else "")) ++
  ("\n" ++
  (((if projectType == "nft" then "Leverage Monad\x27s larger contract size for rich metadata and batch minting" else "")) ++
  ("\n" ++
  (((if projectType == "dao" then "Implement batch voting and concurrent proposal processing" else "")) ++
  ("\n\n### Recommendations:\n" ++
  (((if 0 < (validateRecommendations codeBase).length then String.intercalate "\n" ((validateRecommendations codeBase).map (fun rec => "- " ++ rec)) else "\xF0\u0178\u017D\u2030" ++ " All checks passed! Your migration follows Monad best practices.")) ++
  ("\n\n### Next Steps:\n1. Deploy to Monad testnet for testing\n2. Monitor gas usage patterns\n3. Set up indexing for event data\n4. Test concurrent transaction scenarios"))))))))))))))))))

def checkGasReportText (code : String) : String :=
  "## Gas Optimization Analysis\n\n### High Priority Optimizations: " ++
  ((toString (highPriorityPassed code)) ++
  ("/" ++
  ((toString (highPriorityTotal code)) ++
  (" \u00E2\u0153\u201C\n\n### Detailed Results:\n" ++
  ((String.intercalate "\n" ((gasChecks code).map (fun check => (if check.passed then "\xE2\u0153\u2026" else "\xE2\u0152") ++ (" **" ++ (check.check ++ ("** (" ++ (check.importance ++ " priority)"))))))) ++
  ("\n\n### Monad-Specific Gas Recommendations:\n\n#### \u00E2\u0153\u2026 **DO:**\n- Use hardcoded gas price: `" ++
  ((toString MonadNetworkConfig.GAS_CONFIG.defaultGasPrice) ++
  ("` wei (52 gwei)\n- Set explicit gas limits for predictable costs\n- Implement batch operations to reduce transaction count\n- Use EIP-1559 transaction format\n\n#### \u00E2\u0152 **DON\x27T:**\n- Call `eth_estimateGas` - use known gas costs instead\n- Use dynamic gas pricing - values are hardcoded on Monad\n- Ignore gas_limit charging - Monad charges gas_limit not gas_used\n\n### Code Examples:\n\n```typescript\n// \u00E2\u0153\u2026 Optimized for Monad\nconst tx = \x7b\n  gasLimit: 21000n, // Explicit limit\n  gasPrice: " ++
  ((toString MonadNetworkConfig.GAS_CONFIG.defaultGasPrice) ++
  ("n, // Hardcoded\n  maxFeePerGas: " ++
  ((toString MonadNetworkConfig.GAS_CONFIG.baseFeePerGas) ++
  ("n + " ++
  ((toString MonadNetworkConfig.GAS_CONFIG.maxPriorityFeePerGas) ++
  ("n\n\x7d;\n\n// \u00E2\u0152 Avoid on Monad\nconst gasLimit = await contract.estimateGas.transfer(to, amount);\nconst gasPrice = await provider.getGasPrice();\n```"))))))))))))))

def checklistText (complexity : String) : String :=
  "## Monad Migration Checklist (" ++
  ((upperStr complexity) ++
  (" complexity)\n\n### Pre-Migration\n- [ ] Audit existing codebase for Monad compatibility\n- [ ] Identify gas-heavy operations for optimization\n- [ ] Plan indexing strategy for event data\n- [ ] Set up Monad testnet development environment\n\n### Core Migration Tasks\n" ++
  ((String.intercalate "\n" ((selectChecklist complexity).map (fun item => "- [ ] " ++ item))) ++
  ("\n\n### Monad-Specific Optimizations\n- [ ] Replace `eth_chainId` calls with hardcoded value: " ++
  ((toString MonadNetworkConfig.TESTNET.chainId) ++
  ("\n- [ ] Replace `eth_gasPrice` calls with hardcoded value: " ++
  ((toString MonadNetworkConfig.GAS_CONFIG.defaultGasPrice) ++
  (" wei\n- [ ] Use Multicall3 at: `" ++
  ((MonadNetworkConfig.Multicall3Addr) ++
  ("`\n- [ ] Implement proper gas_limit vs gas_used cost calculations\n- [ ] Optimize for 500ms block times\n\n### Testing & Validation\n- [ ] Test all contract functions on Monad testnet\n- [ ] Verify gas cost predictions vs actual usage\n- [ ] Test concurrent transaction scenarios\n- [ ] Validate indexer integration and event querying\n- [ ] Performance test with high transaction volumes\n- [ ] Test error handling and recovery scenarios\n\n### Deployment & Monitoring\n- [ ] Deploy to Monad testnet with proper gas settings\n- [ ] Set up transaction monitoring and alerting\n- [ ] Configure indexer for production data access\n- [ ] Implement health checks and uptime monitoring\n- [ ] Document migration changes and new patterns\n\n### Resources\n- **Testnet RPC**: " ++
  ((MonadNetworkConfig.TESTNET.rpcUrl) ++
  ("\n- **Explorer**: " ++
  ((MonadNetworkConfig.TESTNET.explorerUrl) ++
  ("\n- **Faucet**: " ++
  ((optStr MonadNetworkConfig.TESTNET.faucetUrl) ++
  ("\n- **Max Contract Size**: " ++
  ((toString (MonadNetworkConfig.OPTIMIZATION_CONSTANTS.MAX_CONTRACT_SIZE / 1024)) ++
  ("kb\n- **Recommended Batch Size**: " ++
  ((toString MonadNetworkConfig.OPTIMIZATION_CONSTANTS.RECOMMENDED_BATCH_SIZE) ++
  ("\n\n### Success Criteria\n- All transactions execute with predictable gas costs\n- Batch operations reduce overall transaction count by >50%\n- Event indexing provides real-time data access\n- Application performs better than original EVM implementation"))))))))))))))))))))

def deploymentScriptText (contractName : String) (constructorArgs : List String) (useCreateX : Bool) : String :=
  "\n// === MONAD DEPLOYMENT SCRIPT ===\n// Optimized deployment script for Monad blockchain\n\nimport \x7b ethers \x7d from \"ethers\";\nimport \x7b MonadNetworkConfig \x7d from \"./monad-config\";\n\n// Monad-specific deployment configuration\nconst MONAD_DEPLOYMENT_CONFIG = \x7b\n  // Use hardcoded gas values for predictable costs\n  gasPrice: " ++
  ((toString MonadNetworkConfig.GAS_CONFIG.defaultGasPrice) ++
  (",\n  gasLimit: 2000000, // Explicit gas limit for deployment\n  \n  // Network configuration\n  chainId: " ++
  ((toString MonadNetworkConfig.TESTNET.chainId) ++
  (",\n  rpcUrl: \"" ++
  ((MonadNetworkConfig.TESTNET.rpcUrl) ++
  ("\",\n  \n  // Contract addresses\n  " ++
  ((if useCreateX then ("createX: \"" ++ ((MonadNetworkConfig.CreateXAddr) ++ ("\","))) else "") ++
  ("\n  multicall3: \"" ++
  ((MonadNetworkConfig.Multicall3Addr) ++
  ("\",\n\x7d;\n\nasync function deployContract() \x7b\n  // === MONAD OPTIMIZATION: Provider setup ===\n  const provider = new ethers.JsonRpcProvider(MONAD_DEPLOYMENT_CONFIG.rpcUrl);\n  \n  // === MONAD OPTIMIZATION: Signer with explicit gas config ===\n  const signer = new ethers.Wallet(process.env.PRIVATE_KEY!, provider);\n  \n  // Verify network\n  const network = await provider.getNetwork();\n  console.log(`Deploying to network: $\x7bnetwork.name\x7d (chainId: $\x7bnetwork.chainId\x7d)`);\n  \n  if (network.chainId !== BigInt(MONAD_DEPLOYMENT_CONFIG.chainId)) \x7b\n    throw new Error(`Wrong network! Expected $\x7bMONAD_DEPLOYMENT_CONFIG.chainId\x7d, got $\x7bnetwork.chainId\x7d`);\n  \x7d\n\n  // === MONAD OPTIMIZATION: Load contract factory ===\n  const ContractFactory = await ethers.getContractFactory(\"" ++
  ((contractName) ++
  ("\", signer);\n  \n  " ++
  ((if useCreateX then ("\n  // === MONAD OPTIMIZATION: CreateX Deployment (Deterministic) ===\n  const createXContract = new ethers.Contract(\n    MONAD_DEPLOYMENT_CONFIG.createX,\n    CREATE_X_ABI,\n    signer\n  );\n  \n  // Generate deterministic salt\n  const salt = ethers.keccak256(ethers.toUtf8Bytes(\"" ++ ((contractName) ++ ("\"));\n  \n  // Deploy using CreateX\n  console.log(\"Deploying " ++ ((contractName) ++ (" using CreateX...\");\n  const deployTx = await createXContract.deployCreate2(\n    salt,\n    ContractFactory.bytecode,\n    \x7b\n      gasLimit: MONAD_DEPLOYMENT_CONFIG.gasLimit,\n      gasPrice: MONAD_DEPLOYMENT_CONFIG.gasPrice,\n    \x7d\n  );\n  \n  await deployTx.wait();\n  \n  // Calculate deployed address\n  const deployedAddress = await createXContract.computeCreate2Address(\n    salt,\n    ethers.keccak256(ContractFactory.bytecode),\n    signer.address\n  );\n  "))))) else ("\n  // === MONAD OPTIMIZATION: Standard deployment with explicit gas ===\n  console.log(\"Deploying " ++ ((contractName) ++ ("...\");\n  const contract = await ContractFactory.deploy(\n    " ++ ((quotedArgsJoin constructorArgs) ++ (",\n    \x7b\n      gasLimit: MONAD_DEPLOYMENT_CONFIG.gasLimit,\n      gasPrice: MONAD_DEPLOYMENT_CONFIG.gasPrice,\n      // Monad-specific: Set explicit gas to avoid estimation calls\n    \x7d\n  );\n  \n  console.log(\"Waiting for deployment...\");\n  await contract.waitForDeployment();\n  \n  const deployedAddress = await contract.getAddress();\n  ")))))) ++
  ("\n  \n  console.log(`$\x7bcontractName\x7d deployed to: $\x7bdeployedAddress\x7d`);\n  \n  // === MONAD OPTIMIZATION: Verify deployment ===\n  console.log(\"Verifying deployment...\");\n  const deployedContract = new ethers.Contract(\n    deployedAddress,\n    ContractFactory.interface,\n    signer\n  );\n  \n  // Test contract is responsive\n  try \x7b\n    // Make a simple call to verify contract is working\n    const code = await provider.getCode(deployedAddress);\n    if (code === \"0x\") \x7b\n      throw new Error(\"Contract deployment failed - no code at address\");\n    \x7d\n    console.log(\"\u2705 Contract deployed successfully!\");\n  \x7d catch (error) \x7b\n    console.error(\"\u274C Contract deployment verification failed:\", error);\n    throw error;\n  \x7d\n  \n  // === MONAD OPTIMIZATION: Save deployment info ===\n  const deploymentInfo = \x7b\n    contractName: \"" ++
  ((contractName) ++
  ("\",\n    address: deployedAddress,\n    chainId: MONAD_DEPLOYMENT_CONFIG.chainId,\n    gasUsed: MONAD_DEPLOYMENT_CONFIG.gasLimit, // Monad charges gas_limit\n    gasPrice: MONAD_DEPLOYMENT_CONFIG.gasPrice.toString(),\n    deploymentTime: new Date().toISOString(),\n    constructorArgs: [" ++
  ((quotedArgsJoin constructorArgs) ++
  ("],\n    " ++
  ((if useCreateX then "deploymentMethod: \"CreateX\"," else "deploymentMethod: \"Standard\",") ++
  ("\n  \x7d;\n  \n  console.log(\"Deployment info:\", JSON.stringify(deploymentInfo, null, 2));\n  \n  return \x7b\n    contract: deployedContract,\n    address: deployedAddress,\n    deploymentInfo\n  \x7d;\n\x7d\n\n// === MONAD OPTIMIZATION: Batch deployment function ===\nasync function batchDeploy(contracts: Array<\x7bname: string, args: string[]\x7d>) \x7b\n  console.log(\"Starting batch deployment...\");\n  \n  const provider = new ethers.JsonRpcProvider(MONAD_DEPLOYMENT_CONFIG.rpcUrl);\n  const signer = new ethers.Wallet(process.env.PRIVATE_KEY!, provider);\n  \n  // Get initial nonce\n  const initialNonce = await provider.getTransactionCount(signer.address);\n  \n  // Deploy contracts concurrently with managed nonces\n  const deploymentPromises = contracts.map(async (contractInfo, index) => \x7b\n    const factory = await ethers.getContractFactory(contractInfo.name, signer);\n    \n    return factory.deploy(...contractInfo.args, \x7b\n      gasLimit: MONAD_DEPLOYMENT_CONFIG.gasLimit,\n      gasPrice: MONAD_DEPLOYMENT_CONFIG.gasPrice,\n      nonce: initialNonce + index,\n    \x7d);\n  \x7d);\n  \n  console.log(`Deploying $\x7bcontracts.length\x7d contracts concurrently...`);\n  const deployedContracts = await Promise.all(deploymentPromises);\n  \n  // Wait for all deployments\n  await Promise.all(deployedContracts.map(contract => contract.waitForDeployment()));\n  \n  console.log(\"\u2705 All contracts deployed successfully!\");\n  return deployedContracts;\n\x7d\n\n" ++
  ((if useCreateX then "\n// CreateX ABI (minimal)\nconst CREATE_X_ABI = [\n  \"function deployCreate2(bytes32 salt, bytes memory bytecode) external returns (address)\",\n  \"function computeCreate2Address(bytes32 salt, bytes32 bytecodeHash, address deployer) external view returns (address)\"\n];\n" else "") ++
  ("\n\n// Export deployment functions\nexport \x7b deployContract, batchDeploy, MONAD_DEPLOYMENT_CONFIG \x7d;\n\n// Run deployment if called directly\nif (require.main === module) \x7b\n  deployContract()\n    .then(() => process.exit(0))\n    .catch((error) => \x7b\n      console.error(error);\n      process.exit(1);\n    \x7d);\n\x7d"))))))))))))))))))))))

def deploymentReportText (contractName : String) (constructorArgs : List String) (useCreateX : Bool) : String :=
  "## Monad Deployment Script\n\n### Generated deployment script optimized for Monad blockchain:\n\n```typescript\n" ++
  ((deploymentScriptText contractName constructorArgs useCreateX) ++
  ("\n```\n\n### Key Optimizations:\n\n1. **Explicit Gas Configuration**: Uses hardcoded gas values to avoid RPC calls\n2. **Network Verification**: Ensures deployment to correct Monad network\n3. **Batch Deployment**: Supports concurrent deployment with nonce management\n4. **Deterministic Deployment**: " ++
  ((if useCreateX then "Uses CreateX for" else "Option to use CreateX for") ++
  (" deterministic addresses\n5. **Deployment Verification**: Comprehensive verification and logging\n\n### Usage:\n\n```bash\n# Set environment variables\nexport PRIVATE_KEY=\"your-private-key\"\n\n# Deploy single contract\nnpm run deploy\n\n# Or deploy multiple contracts\nnpm run deploy:batch\n```\n\n### Monad-Specific Features:\n\n- **Gas Charging**: Configured for gas_limit charging model\n- **Concurrent Deployment**: Optimized for Monad\x27s performance\n- **Network Configuration**: Pre-configured for Monad testnet\n- **Canonical Contracts**: Integrated with Monad\x27s deployed contracts\n\n### Next Steps:\n\n1. Test deployment on Monad testnet\n2. Verify contract functionality\n3. Set up contract verification\n4. Configure monitoring and alerts"))))

/-! ## Reports and the four embedded handlers -/

/-- One element of the `content` array of a report: `{type: "text", text}`. -/
structure ReportContent where
  type : String
  text : String
deriving DecidableEq

/-- The value returned by every tool handler. -/
structure Report where
  content : List ReportContent
deriving DecidableEq

/-- Embeds `ValidationTool.validateMonadMigration(args)`. -/
def validateMonadMigration (projectType codeBase : String) : Report :=
  ⟨[⟨"text", validateReportText projectType codeBase⟩]⟩

/-- Embeds `ValidationTool.checkGasOptimization(args)`. -/
def checkGasOptimization (code : String) : Report :=
  ⟨[⟨"text", checkGasReportText code⟩]⟩

/-- Embeds `ValidationTool.generateMigrationChecklist(args)`. -/
def generateMigrationChecklist (complexity : String) : Report :=
  ⟨[⟨"text", checklistText complexity⟩]⟩

/-- Embeds `ContractMigrationTool.generateMonadDeploymentScript(args)`
(`constructorArgs` defaults to `[]` and `useCreateX` to `false` when absent;
callers of this embedding pass the destructured values). -/
def generateMonadDeploymentScript (contractName : String)
    (constructorArgs : List String) (useCreateX : Bool) : Report :=
  ⟨[⟨"text", deploymentReportText contractName constructorArgs useCreateX⟩]⟩

/-! ## `index.ts`: tool registry and dispatch

The `tools` array of each tool module is embedded as a list of descriptors
(`name`, `description`, `required` fields of the `inputSchema`; the
per-property type/enum details of the schemas are not needed by any claim
and are omitted from the descriptor record). -/

/-- A tool descriptor: `name`, `description`, and the `required` list of its
`inputSchema`. -/
structure ToolDescr where
  name : String
  description : String
  required : List String
deriving DecidableEq

/-- The seven tool module classes, in the order they are instantiated in
`MonadMigrationServer.initializeTools`. -/
inductive ModuleId where
  | contractMigration
  | frontendMigration
  | gasOptimization
  | rpcOptimization
  | indexerMigration
  | transactionOptimization
  | validation
deriving DecidableEq

/-- Embeds `ContractMigrationTool.tools`. -/
def contractMigrationTools : List ToolDescr :=
  [⟨"migrate_contract_deployment",
    "Migrate contract deployment scripts to Monad with optimizations",
    ["originalCode", "contractType"]⟩,
   ⟨"optimize_contract_size",
    "Optimize contract for Monad\x27s larger size limits (128kb vs 24.5kb)",
    ["contractCode"]⟩,
   ⟨"add_monad_gas_optimizations",
    "Add Monad-specific gas optimizations to contracts",
    ["contractCode"]⟩,
   ⟨"generate_monad_deployment_script",
    "Generate Monad-optimized deployment script",
    ["contractName"]⟩]

/-- Embeds `FrontendMigrationTool.tools`. -/
def frontendMigrationTools : List ToolDescr :=
  [⟨"migrate_web3_config",
    "Migrate web3 configuration to Monad network",
    ["originalConfig", "framework"]⟩,
   ⟨"optimize_rpc_calls",
    "Optimize RPC calls for Monad performance",
    ["code", "library"]⟩,
   ⟨"implement_batch_calls",
    "Implement batch calling patterns for Monad",
    ["functions"]⟩]

/-- Embeds `GasOptimizationTool.tools`. -/
def gasOptimizationTools : List ToolDescr :=
  [⟨"optimize_gas_estimation",
    "Replace gas estimation with hardcoded values for Monad",
    ["code"]⟩,
   ⟨"implement_gas_limit_strategy",
    "Implement gas limit strategy for Monad\x27s gas_limit charging",
    ["transactionTypes"]⟩]

/-- Embeds `RPCOptimizationTool.tools`. -/
def rpcOptimizationTools : List ToolDescr :=
  [⟨"implement_multicall_pattern",
    "Implement multicall patterns for batching RPC calls",
    ["calls"]⟩,
   ⟨"optimize_concurrent_calls",
    "Optimize concurrent RPC call patterns",
    ["originalCode"]⟩]

/-- Embeds `IndexerMigrationTool.tools`. -/
def indexerMigrationTools : List ToolDescr :=
  [⟨"setup_envio_indexer",
    "Set up Envio HyperIndex for Monad",
    ["contractAddress", "events"]⟩,
   ⟨"configure_goldsky_subgraph",
    "Configure Goldsky subgraph for Monad",
    ["contractName", "events"]⟩]

/-- Embeds `TransactionOptimizationTool.tools`. -/
def transactionOptimizationTools : List ToolDescr :=
  [⟨"implement_concurrent_transactions",
    "Implement concurrent transaction submission for Monad",
    ["transactionCount"]⟩,
   ⟨"optimize_nonce_management",
    "Implement local nonce management for multiple transactions",
    ["walletType"]⟩]

/-- Embeds `ValidationTool.tools`. -/
def validationTools : List ToolDescr :=
  [⟨"validate_monad_migration",
    "Validate a complete Monad migration for best practices",
    ["projectType", "codeBase"]⟩,
   ⟨"check_gas_optimization",
    "Check for proper gas optimization patterns",
    ["code"]⟩,
   ⟨"generate_migration_checklist",
    "Generate a comprehensive migration checklist",
    ["complexity"]⟩]

/-- Embeds `tool.getTools()` for each module. -/
def moduleTools : ModuleId → List ToolDescr
  | .contractMigration => contractMigrationTools
  | .frontendMigration => frontendMigrationTools
  | .gasOptimization => gasOptimizationTools
  | .rpcOptimization => rpcOptimizationTools
  | .indexerMigration => indexerMigrationTools
  | .transactionOptimization => transactionOptimizationTools
  | .validation => validationTools

/-- The `tools` array of `initializeTools`, in construction order. -/
def modulesInOrder : List ModuleId :=
  [.contractMigration, .frontendMigration, .gasOptimization, .rpcOptimization,
   .indexerMigration, .transactionOptimization, .validation]

/-- The sequence of `this.tools.set(t.name, tool)` calls performed by
`initializeTools`, in execution order. -/
def registrationSequence : List (String × ModuleId) :=
  modulesInOrder.flatMap (fun m => (moduleTools m).map (fun t => (t.name, m)))

/-- JavaScript `Map.prototype.set` on an insertion-ordered association list:
an existing key keeps its position and gets the new value; a new key is
appended. -/
def mapSet (m : List (String × ModuleId)) (k : String) (v : ModuleId) :
    List (String × ModuleId) :=
  if m.any (fun p => p.1 == k) then
    m.map (fun p => if p.1 == k then (k, v) else p)
  else m ++ [(k, v)]

/-- The `this.tools` map after `initializeTools` has run. -/
def toolsMap : List (String × ModuleId) :=
  registrationSequence.foldl (fun m p => mapSet m p.1 p.2) []

/-- Embeds `this.tools.get(name)`. -/
def lookupTool (name : String) : Option ModuleId :=
  (toolsMap.find? (fun p => p.1 == name)).map Prod.snd

/-- The list built by the `ListToolsRequestSchema` handler: for every value
of `this.tools` (one per map entry, i.e. one per operation name), push all
all tools of that module. -/
def allListedTools : List ToolDescr :=
  toolsMap.flatMap (fun p => moduleTools p.2)

/-- Outcome of the `CallToolRequestSchema` handler before any tool handler
body runs: either the thrown `Error` message, or delegation of the request
to `executeTool` of the owning module. -/
inductive DispatchResult where
  | errorMsg (msg : String)
  | delegated (m : ModuleId) (name : String)
deriving DecidableEq

/-- Lookup-and-throw logic of the `CallToolRequestSchema` handler:
`const tool = this.tools.get(name); if (!tool) throw new Error(...)`. -/
def callToolHandler (name : String) : DispatchResult :=
  match lookupTool name with
  | none => .errorMsg ("Tool " ++ (name ++ " not found"))
  | some m => .delegated m name

/-- Modelled from the spec: the §6 table mapping each declared operation
name to its required argument fields (used to compare the descriptor
list of the code against the specified one). -/
def specOperationTable : List (String × List String) :=
  [("migrate_contract_deployment", ["originalCode", "contractType"]),
   ("optimize_contract_size", ["contractCode"]),
   ("add_monad_gas_optimizations", ["contractCode"]),
   ("generate_monad_deployment_script", ["contractName"]),
   ("migrate_web3_config", ["originalConfig", "framework"]),
   ("optimize_rpc_calls", ["code", "library"]),
   ("implement_batch_calls", ["functions"]),
   ("optimize_gas_estimation", ["code"]),
   ("implement_gas_limit_strategy", ["transactionTypes"]),
   ("implement_multicall_pattern", ["calls"]),
   ("optimize_concurrent_calls", ["originalCode"]),
   ("setup_envio_indexer", ["contractAddress", "events"]),
   ("configure_goldsky_subgraph", ["contractName", "events"]),
   ("implement_concurrent_transactions", ["transactionCount"]),
   ("optimize_nonce_management", ["walletType"]),
   ("validate_monad_migration", ["projectType", "codeBase"]),
   ("check_gas_optimization", ["code"]),
   ("generate_migration_checklist", ["complexity"])]

/-- The 18 operation names of the §6 table, in order. -/
def specOperationNames : List String :=
  specOperationTable.map Prod.fst

/-! ## Theorems for the claims -/

set_option maxRecDepth 100000

/-- Loop/`find?` agreement used by claim C6. -/
theorem contractNameLoop_eq_find (target : String) (l : List (String × String)) :
    MonadNetworkConfig.contractNameLoop target l =
      (l.find? (fun p => lowerStr p.2 == target)).map Prod.fst := by
  induction l with
  | nil => rfl
  | cons p rest ih =>
    obtain ⟨n, a⟩ := p
    by_cases h : (lowerStr a == target) = true
    · simp [MonadNetworkConfig.contractNameLoop, List.find?, h]
    · simp only [Bool.not_eq_true] at h
      simp [MonadNetworkConfig.contractNameLoop, List.find?, h, ih]

/-- C1: for `validate_monad_migration`, the score is
`round(100 * passedCount / totalCount)` (round half up) over the exact 5
declared checks; and any `codeBase` containing all five positive markers and
not containing `"estimateGas"` scores 100. -/
theorem validate_monad_migration_score :
    (∀ codeBase : String,
       (validateChecks codeBase).length = 5 ∧
       validateScore codeBase =
         mathRound (100 * validatePassedChecks codeBase) ((validateChecks codeBase).length)) ∧
    (∀ codeBase : String,
       strIncludes codeBase "10143" = true →
       (strIncludes codeBase "52000000000" || strIncludes codeBase "52 * 10**9") = true →
       (strIncludes codeBase "multicall" || strIncludes codeBase "Multicall3") = true →
       strIncludes codeBase "Promise.all" = true →
       strIncludes codeBase "gasLimit" = true →
       strIncludes codeBase "estimateGas" = false →
       validatePassedChecks codeBase = 5 ∧ validateScore codeBase = 100) := by
  constructor
  · intro codeBase
    refine ⟨rfl, ?_⟩
    unfold validateScore
    rw [Nat.mul_comm]
  · intro codeBase h1 h2 h3 h4 h5 h6
    have e0 : toString MonadNetworkConfig.TESTNET.chainId = "10143" := by decide
    have hp : validatePassedChecks codeBase = 5 := by
      unfold validatePassedChecks validateChecks networkConfigCheckPassed
        gasPriceCheckPassed multicallCheckPassed concurrentCheckPassed
        gasLimitCheckPassed
      rw [e0]
      simp [h1, h2, h3, h4, h5, h6]
    refine ⟨hp, ?_⟩
    have hl : (validateChecks codeBase).length = 5 := rfl
    unfold validateScore
    rw [hp, hl]
    decide

/-- Witness for C1: a concrete `codeBase` containing all five positive
markers and no `estimateGas` scores 100. -/
theorem validate_monad_migration_score_witness :
    validatePassedChecks "10143 52000000000 multicall Promise.all gasLimit" = 5 ∧
    validateScore "10143 52000000000 multicall Promise.all gasLimit" = 100 :=
  validate_monad_migration_score.2 "10143 52000000000 multicall Promise.all gasLimit"
    (by decide) (by decide) (by decide) (by decide) (by decide) (by decide)

/-- C2 (counter-evidence): the `ListToolsRequestSchema` handler iterates the
values of the name→module map (one value per operation name) and pushes the
whole tool list of the owning module each time, so it returns 50 descriptors, not
18; the name set and the per-name `required` lists do match the §6 table. -/
theorem list_tools_handler_returns_fifty :
    allListedTools.length = 50 ∧
    (allListedTools.all (fun d =>
       (specOperationTable.find? (fun p => p.1 == d.name)).map Prod.snd ==
         some d.required)) = true ∧
    ((allListedTools.map ToolDescr.name).all
       (fun n => specOperationNames.contains n)) = true ∧
    (specOperationNames.all
       (fun n => (allListedTools.map ToolDescr.name).contains n)) = true := by
  refine ⟨by decide, by decide, by decide, by decide⟩

/-- C3: the checklist selected by `generate_migration_checklist` has exactly
5 items for `"simple"`, 5+6 = 11 for `"moderate"`, 5+6+10 = 21 for
`"complex"`, and the rendered core-task list has exactly one rendered item
per checklist entry. -/
theorem generate_migration_checklist_counts :
    basicChecklist.length = 5 ∧
    moderateChecklist.length = basicChecklist.length + 6 ∧
    complexChecklist.length = moderateChecklist.length + 10 ∧
    (selectChecklist "simple").length = 5 ∧
    (selectChecklist "moderate").length = 11 ∧
    (selectChecklist "complex").length = 21 ∧
    ∀ complexity : String,
      ((selectChecklist complexity).map (fun item => "- [ ] " ++ item)).length =
        (selectChecklist complexity).length := by
  refine ⟨by decide, by decide, by decide, by decide, by decide, by decide, ?_⟩
  intro complexity
  exact List.length_map _ _

/-- C4: `check_gas_optimization` on the empty string evaluates all five
checks; only "No Gas Estimation" passes (its `/estimateGas/` pattern is
absent), the other four fail; the reported high-priority ratio is the
defined value 0/3 and appears in the report text. -/
theorem check_gas_optimization_empty_string :
    (gasChecks "").map GasCheck.passed = [false, false, true, false, false] ∧
    (gasChecks "").length = 5 ∧
    ((gasChecks "").map GasCheck.check).get? 2 = some "No Gas Estimation" ∧
    highPriorityPassed "" = 0 ∧
    highPriorityTotal "" = 3 ∧
    strIncludes (checkGasReportText "") "### High Priority Optimizations: 0/3" = true := by
  refine ⟨by decide, by decide, by decide, by decide, by decide, by decide⟩

/-- C5: dispatching an operation name absent from the registry throws
`Tool <name> not found` before any module handler is reached. -/
theorem dispatch_unknown_tool_not_found (name : String)
    (h : name ∉ registrationSequence.map Prod.fst) :
    callToolHandler name = .errorMsg ("Tool " ++ (name ++ " not found")) := by
  have emap : toolsMap = registrationSequence := by decide
  have hfind : toolsMap.find? (fun p => p.1 == name) = none := by
    rw [emap, List.find?_eq_none]
    intro p hp hbeq
    exact h (List.mem_map.mpr ⟨p, hp, beq_iff_eq.mp hbeq⟩)
  unfold callToolHandler lookupTool
  rw [hfind]
  rfl

/-- Witness for C5: `"nonexistent_tool"` is not registered and dispatching
it yields the not-found error. -/
theorem dispatch_unknown_tool_not_found_witness :
    callToolHandler "nonexistent_tool" =
      .errorMsg ("Tool " ++ ("nonexistent_tool" ++ " not found")) :=
  dispatch_unknown_tool_not_found "nonexistent_tool" (by decide)

/-- C6: `isCanonicalContract` is true exactly when some `CONTRACTS` value
matches the address case-insensitively, and `getContractName` returns the
first matching entry (insertion order) or `null`. -/
theorem contract_address_lookup (address : String) :
    (MonadNetworkConfig.isCanonicalContract address = true ↔
       MonadNetworkConfig.isKnownAddressSpec address) ∧
    MonadNetworkConfig.getContractName address =
      MonadNetworkConfig.nameForAddressSpec address := by
  constructor
  · unfold MonadNetworkConfig.isCanonicalContract MonadNetworkConfig.isKnownAddressSpec
    rw [List.any_eq_true]
    constructor
    · rintro ⟨x, hx, hb⟩
      obtain ⟨p, hp, rfl⟩ := List.mem_map.mp hx
      exact ⟨p, hp, beq_iff_eq.mp hb⟩
    · rintro ⟨p, hp, he⟩
      exact ⟨p.2, List.mem_map_of_mem _ hp, beq_iff_eq.mpr he⟩
  · unfold MonadNetworkConfig.getContractName MonadNetworkConfig.nameForAddressSpec
    exact contractNameLoop_eq_find _ _

/-- C7: the configuration constants have exactly the specified values; the
chain id prints as the literal `"10143"` used by the first analyzer check;
and every `generate_migration_checklist` report contains the literal
substrings `"10143"` and `"52000000000"`. -/
theorem config_constants_bit_exact :
    MonadNetworkConfig.TESTNET.chainId = 10143 ∧
    MonadNetworkConfig.GAS_CONFIG.defaultGasPrice = 52000000000 ∧
    MonadNetworkConfig.GAS_CONFIG.baseFeePerGas = 50000000000 ∧
    MonadNetworkConfig.GAS_CONFIG.maxPriorityFeePerGas = 2000000000 ∧
    MonadNetworkConfig.GAS_CONFIG.standardTransferGas = 21000 ∧
    MonadNetworkConfig.OPTIMIZATION_CONSTANTS.MAX_CONTRACT_SIZE = 131072 ∧
    MonadNetworkConfig.OPTIMIZATION_CONSTANTS.MAX_BLOCK_RANGE_LOGS = 100 ∧
    MonadNetworkConfig.OPTIMIZATION_CONSTANTS.RECOMMENDED_BATCH_SIZE = 50 ∧
    toString MonadNetworkConfig.TESTNET.chainId = "10143" ∧
    ∀ complexity : String,
      strIncludes (checklistText complexity) "10143" = true ∧
      strIncludes (checklistText complexity) "52000000000" = true := by
  refine ⟨by decide, by decide, by decide, by decide, by decide, by decide,
          by decide, by decide, by decide, ?_⟩
  intro complexity
  have e0 : toString MonadNetworkConfig.TESTNET.chainId = "10143" := by decide
  have e1 : toString MonadNetworkConfig.GAS_CONFIG.defaultGasPrice = "52000000000" := by
    decide
  constructor
  · unfold checklistText
    apply strIncludes_append_right
    apply strIncludes_append_right
    apply strIncludes_append_right
    apply strIncludes_append_right
    apply strIncludes_append_right
    rw [e0]
    exact strIncludes_here _ _
  · unfold checklistText
    apply strIncludes_append_right
    apply strIncludes_append_right
    apply strIncludes_append_right
    apply strIncludes_append_right
    apply strIncludes_append_right
    apply strIncludes_append_right
    apply strIncludes_append_right
    rw [e1]
    exact strIncludes_here _ _

/-- C8: the 18 operation names declared by the seven modules are pairwise
distinct, so building the registry performs no overwriting `set` and each
name is owned by exactly one module. -/
theorem registry_operation_names_unique :
    (registrationSequence.map Prod.fst).Nodup ∧
    registrationSequence.length = 18 ∧
    toolsMap = registrationSequence ∧
    ((registrationSequence.map Prod.fst).all (fun n =>
       (registrationSequence.filter (fun p => p.1 == n)).length == 1)) = true := by
  refine ⟨by decide, by decide, by decide, by decide⟩

/-- C9: tool invocation is a pure function of its arguments (two invocations
with the same arguments yield the same report), and the timestamp expression
in the deployment-script template is emitted as literal source text in the
generated report, not evaluated. -/
theorem deployment_report_deterministic :
    (∀ (contractName : String) (constructorArgs : List String) (useCreateX : Bool),
       generateMonadDeploymentScript contractName constructorArgs useCreateX =
         generateMonadDeploymentScript contractName constructorArgs useCreateX) ∧
    (∀ name : String, callToolHandler name = callToolHandler name) ∧
    (∀ (contractName : String) (constructorArgs : List String) (useCreateX : Bool),
       strIncludes (deploymentScriptText contractName constructorArgs useCreateX)
         "deploymentTime: new Date().toISOString()," = true) := by
  refine ⟨fun _ _ _ => rfl, fun _ => rfl, ?_⟩
  intro contractName constructorArgs useCreateX
  unfold deploymentScriptText
  iterate 16 apply strIncludes_append_right
  apply strIncludes_append_left
  decide

/-- C10: every complexity value other than `"simple"` and `"moderate"` —
in particular any string outside the declared enum — falls through the
two-way conditional to the full complex checklist of 21 items. -/
theorem checklist_fallthrough_complex (complexity : String)
    (h1 : complexity ≠ "simple") (h2 : complexity ≠ "moderate") :
    selectChecklist complexity = complexChecklist ∧
    (selectChecklist complexity).length = 21 := by
  have e1 : (complexity == "simple") = false := beq_eq_false_iff_ne.mpr h1
  have e2 : (complexity == "moderate") = false := beq_eq_false_iff_ne.mpr h2
  unfold selectChecklist
  rw [e1, e2]
  exact ⟨rfl, by decide⟩

/-- Witness for C10: the out-of-enum complexity `"bogus"` selects the
21-item complex checklist. -/
theorem checklist_fallthrough_complex_witness :
    selectChecklist "bogus" = complexChecklist ∧
    (selectChecklist "bogus").length = 21 :=
  checklist_fallthrough_complex "bogus" (by decide) (by decide)
